import Mathlib

set_option linter.unusedVariables false

/-!
Verification of the trusera-agent-sdk core against its specification.

The Python sources embedded here are `trusera_sdk/client.py` and the
integration interceptors under `trusera_sdk/integrations/`.  The modules
`trusera_sdk/cedar.py`, `trusera_sdk/policy_cache.py`,
`trusera_sdk/enforcement.py`, `trusera_sdk/events.py` and
`trusera_sdk/exceptions.py` are not part of the available sources (only
their tests and callers are); where a definition models one of those it
is documented as modelled from the spec.
-/

namespace Trusera

/-- Modelled from the spec: `EnforcementMode` from the missing
`trusera_sdk/enforcement.py` — one of BLOCK, WARN, LOG (a string enum with
values "block", "warn", "log" per the data model and its tests). -/
inductive EnforcementMode
  | block
  | warn
  | log
deriving DecidableEq, Repr

/-- The string value of an `EnforcementMode` member. -/
def EnforcementMode.value : EnforcementMode → String
  | .block => "block"
  | .warn => "warn"
  | .log => "log"

/-- ASCII lowercasing over the character list of a string, the effect of
the Python `str.lower` on the inputs involved here. -/
def strToLower (s : String) : String := String.mk (s.data.map Char.toLower)

/-- Modelled from the spec: `EnforcementMode.from_string` from the missing
`trusera_sdk/enforcement.py` — case-insensitive construction, a ValueError
(here `Except.error`) on any string outside the three mode values. -/
def EnforcementMode.fromString (s : String) : Except String EnforcementMode :=
  if strToLower s = "block" then .ok .block
  else if strToLower s = "warn" then .ok .warn
  else if strToLower s = "log" then .ok .log
  else .error ("Invalid enforcement mode: " ++ s)

/-- Modelled from the spec: the closed event-type enumeration from the
missing `trusera_sdk/events.py`, including at least POLICY_VIOLATION and
LLM_INVOKE. -/
inductive EventType
  | policyViolation
  | llmInvoke
  | toolCall
deriving DecidableEq, Repr

/-- Modelled from the spec: the `Event` record from the missing
`trusera_sdk/events.py` — type, name, payload and metadata (dictionaries
embedded as association lists). -/
structure Event where
  type : EventType
  name : String
  payload : List (String × String)
  metadata : List (String × String)
deriving DecidableEq, Repr

/-- Modelled from the spec: `PolicyViolationError` from the missing
`trusera_sdk/exceptions.py` — the structured violation error carrying
action, target, reason and optional policy id (shape confirmed by
`tests/test_exceptions.py`). -/
structure PolicyViolationError where
  action : String
  target : String
  reason : String
  policyId : Option String := none
deriving DecidableEq, Repr

/-- The observable outcome of one `_enforce` call: the events passed to
`client.track` and the exception raised, if any. -/
structure EnforceOutcome where
  tracked : List Event
  raised : Option PolicyViolationError
deriving DecidableEq, Repr

/-- Embeds `TruseraLLMInterceptor._enforce` of
`trusera_sdk/integrations/llm_interceptor.py` (lines 68-81), identical to
`TruseraLangChainInterceptor._enforce` of `langchain_interceptor.py`
(lines 77-92).  `clientPresent` is whether `self._client` is configured;
the WARN branch only logs, which has no observable effect here. -/
def enforce (clientPresent : Bool) (mode : EnforcementMode)
    (allowed : Bool) (reason action target : String) : EnforceOutcome :=
  if allowed then
    { tracked := [], raised := none }
  else
    let tracked :=
      if clientPresent then
        [{ type := EventType.policyViolation
           name := "policy_violation_" ++ action
           payload := [("action", action), ("target", target), ("reason", reason)]
           metadata := [("enforcement", mode.value)] }]
      else []
    if mode = EnforcementMode.block then
      { tracked := tracked,
        raised := some { action := action, target := target, reason := reason } }
    else
      { tracked := tracked, raised := none }

/-- Modelled from the spec: the ALLOW/DENY decision enum from the missing
`trusera_sdk/cedar.py`. -/
inductive PolicyDecision
  | allow
  | deny
deriving DecidableEq, Repr

/-- Modelled from the spec: `EvaluationResult` from the missing
`trusera_sdk/cedar.py` — decision, reason and optional policy id;
returned by every evaluation call, never raises. -/
structure EvaluationResult where
  decision : PolicyDecision
  reason : String
  policyId : Option String := none
deriving DecidableEq, Repr

/-- Modelled from the spec: a request context — action type, target and
free-form extension attributes (an association list). -/
structure RequestContext where
  actionType : String
  target : String
  attrs : List (String × String)
deriving DecidableEq, Repr

/-- Modelled from the spec: a condition operator of the restricted rule
language — equality or inequality comparison against a context attribute. -/
inductive CondOp
  | isEq
  | isNe
deriving DecidableEq, Repr

/-- Modelled from the spec: one attribute condition of a rule. -/
structure Condition where
  attr : String
  op : CondOp
  literal : String
deriving DecidableEq, Repr

/-- Modelled from the spec: a compiled forbid rule of the restricted rule
language — an action type, a resource pattern (`none` matches any
resource) and attribute conditions combined with boolean AND. -/
structure ForbidRule where
  actionType : String
  resourcePattern : Option String
  conditions : List Condition
deriving DecidableEq, Repr

/-- A policy as fetched from the remote source: id, rule source text and
enabled flag (spec data model, confirmed by the `GET /policies` shape). -/
structure Policy where
  id : String
  sourceText : String
  enabled : Bool
deriving DecidableEq, Repr

/-- Whether one attribute condition holds of a request context. -/
def condHolds (ctx : RequestContext) (c : Condition) : Bool :=
  match c.op with
  | CondOp.isEq => ctx.attrs.lookup c.attr == some c.literal
  | CondOp.isNe => ctx.attrs.lookup c.attr != some c.literal

/-- Modelled from the spec: whether a forbid rule matches a request — its
action type and resource pattern match and all attribute conditions hold. -/
def ruleMatches (r : ForbidRule) (ctx : RequestContext) : Bool :=
  r.actionType == ctx.actionType &&
    (match r.resourcePattern with
     | none => true
     | some p => p == ctx.target) &&
    r.conditions.all (condHolds ctx)

/-- Modelled from the spec: a `CompiledEvaluator` is the compiled form of
one policy set — here the list of (policy id, forbid rule) pairs compiled
from the enabled policies whose source text parsed. -/
abbrev CompiledEvaluator : Type := List (String × ForbidRule)

/-- Modelled from the spec: compilation of a policy set.  `ruleOf` is the
rule-language front end of the missing `trusera_sdk/cedar.py`: it maps a
source text to its forbid rule, `none` when the text is malformed (such a
rule is skipped, not fatal).  Disabled policies are excluded. -/
def compile (ruleOf : String → Option ForbidRule) (ps : List Policy) :
    CompiledEvaluator :=
  (ps.filter (fun p => p.enabled)).filterMap
    (fun p => (ruleOf p.sourceText).map (fun r => (p.id, r)))

/-- Modelled from the spec: running a request context through a compiled
evaluator — DENY with the rule id and a human-readable reason at the first
matching enabled forbid rule, ALLOW when none matches. -/
def evalCompiled (ev : CompiledEvaluator) (ctx : RequestContext) :
    EvaluationResult :=
  match ev.find? (fun pr => ruleMatches pr.2 ctx) with
  | some pr =>
      { decision := PolicyDecision.deny
        reason := "Denied by policy " ++ pr.1
        policyId := some pr.1 }
  | none =>
      { decision := PolicyDecision.allow
        reason := "No matching forbid rule"
        policyId := none }

/-- The order-independent content hash of a policy set, derived from the
(id, source_text, enabled) triple of every member (spec data model); the
hash is embedded as the multiset of triples, which identifies exactly the
order-independent membership the spec describes. -/
def policySetHash (ps : List Policy) : Multiset (String × String × Bool) :=
  (ps.map fun p => (p.id, p.sourceText, p.enabled) : List _)

/-- Modelled from the spec: the mutable state of a `PolicyCache` from the
missing `trusera_sdk/policy_cache.py` — whether a remote source is
configured, the current compiled evaluator, the stored content hash, the
time of the last successful refresh and the stale TTL.  Time is embedded
as an exact rational. -/
structure PolicyCache where
  hasClient : Bool
  evaluator : CompiledEvaluator
  policyHash : Multiset (String × String × Bool)
  lastSuccessfulRefresh : ℚ
  staleTtl : ℚ

/-- Modelled from the spec: `PolicyCache.evaluate` — ALLOW when no remote
source is configured; ALLOW with a staleness reason (fail-open) when the
last successful refresh is older than `stale_ttl`; otherwise the current
compiled evaluator decides. -/
def cacheEvaluate (c : PolicyCache) (now : ℚ) (ctx : RequestContext) :
    EvaluationResult :=
  if c.hasClient = false then
    { decision := PolicyDecision.allow, reason := "No policy cache" }
  else if c.staleTtl < now - c.lastSuccessfulRefresh then
    { decision := PolicyDecision.allow
      reason := "Policy cache is stale, failing open" }
  else evalCompiled c.evaluator ctx

/-- The outcome of one remote fetch: failure, or success with the fetched
policy list. -/
inductive FetchResult
  | failure
  | success (policies : List Policy)

/-- Modelled from the spec: `PolicyCache._refresh_once` — on fetch failure
leave everything untouched and return normally (the function is total, no
error escapes); on success, if the content hash is unchanged update only
`last_successful_refresh_time` (the evaluator field is not touched, no
recompilation happens), otherwise compile afresh and replace evaluator,
hash and refresh time. -/
def refreshOnce (ruleOf : String → Option ForbidRule) (c : PolicyCache)
    (now : ℚ) : FetchResult → PolicyCache
  | FetchResult.failure => c
  | FetchResult.success ps =>
      if policySetHash ps = c.policyHash then
        { c with lastSuccessfulRefresh := now }
      else
        { c with
            evaluator := compile ruleOf ps
            policyHash := policySetHash ps
            lastSuccessfulRefresh := now }

/-- Whether the second character list starts the first. -/
def charsStartWith : List Char → List Char → Bool
  | _, [] => true
  | [], _ :: _ => false
  | c :: cs, d :: ds => c == d && charsStartWith cs ds

/-- Whether `sub` occurs as a contiguous run inside the character list. -/
def charsContain (sub : List Char) : List Char → Bool
  | [] => charsStartWith [] sub
  | c :: cs => charsStartWith (c :: cs) sub || charsContain sub cs

/-- Whether the string `sub` occurs inside `s`. -/
def strContains (s sub : String) : Bool := charsContain sub.toList s.toList

end Trusera

/-- A forbid rule used by concrete witnesses: forbid action "http" on any
resource when the hostname attribute equals "evil.com". -/
def Trusera.evilRule : Trusera.ForbidRule :=
  { actionType := "http"
    resourcePattern := none
    conditions :=
      [{ attr := "hostname", op := Trusera.CondOp.isEq, literal := "evil.com" }] }

/-- A request context used by concrete witnesses: an http request whose
hostname attribute is "evil.com". -/
def Trusera.evilCtx : Trusera.RequestContext :=
  { actionType := "http"
    target := "https://evil.com/api"
    attrs := [("hostname", "evil.com"), ("method", "GET")] }

/-- A concrete policy cache whose compiled evaluator denies `evilCtx` and
whose last successful refresh is at time 0 with a stale TTL of 0. -/
def Trusera.staleCache : Trusera.PolicyCache :=
  { hasClient := true
    evaluator := [("p1", Trusera.evilRule)]
    policyHash := Trusera.policySetHash
      [{ id := "p1", sourceText := "forbid evil.com", enabled := true }]
    lastSuccessfulRefresh := 0
    staleTtl := 0 }

/-- Two concrete policies used by the C5 witness. -/
def Trusera.polA : Trusera.Policy :=
  { id := "p1", sourceText := "forbid a.com", enabled := true }

/-- Second concrete policy used by the C5 witness. -/
def Trusera.polB : Trusera.Policy :=
  { id := "p2", sourceText := "forbid b.com", enabled := false }

/-- A concrete cache storing the hash of `[polA, polB]`. -/
def Trusera.permCache : Trusera.PolicyCache :=
  { hasClient := true
    evaluator := [("p1", Trusera.evilRule)]
    policyHash := Trusera.policySetHash [Trusera.polA, Trusera.polB]
    lastSuccessfulRefresh := 0
    staleTtl := 300 }


/-- The telemetry-client state read and written by `TruseraClient.flush`
of `trusera_sdk/client.py`: the agent identity, the configured batch size
and the in-memory event queue.  The head of the list is the front of the
queue: `Queue.get_nowait` takes from the front, `Queue.put` appends at
the back. -/
structure Trusera.ClientState where
  agentId : Option String
  batchSize : Nat
  queue : List Trusera.Event
deriving DecidableEq, Repr

/-- Whether the batch POST to the events endpoint succeeds. -/
inductive Trusera.PostResult
  | success
  | failure
deriving DecidableEq, Repr

/-- The observable result of one `flush` call: the new client state and
the events actually delivered to the API. -/
structure Trusera.FlushResult where
  state : Trusera.ClientState
  delivered : List Trusera.Event
deriving DecidableEq, Repr

/-- Embeds `TruseraClient.flush` of `trusera_sdk/client.py` (lines
184-222): a no-op without an agent id; otherwise drain up to `batch_size`
events from the front of the queue, a no-op if nothing was drained, then
POST the batch — on success the drained events are delivered, on failure
every drained event is re-enqueued at the back of the remaining queue. -/
def Trusera.flush (s : Trusera.ClientState) (post : Trusera.PostResult) :
    Trusera.FlushResult :=
  match s.agentId with
  | none => { state := s, delivered := [] }
  | some _ =>
      let toSend := s.queue.take s.batchSize
      let rest := s.queue.drop s.batchSize
      if toSend.isEmpty then { state := s, delivered := [] }
      else
        match post with
        | Trusera.PostResult.success =>
            { state := { s with queue := rest }, delivered := toSend }
        | Trusera.PostResult.failure =>
            { state := { s with queue := rest ++ toSend }, delivered := [] }

/-- A first concrete event for the C6 witness. -/
def Trusera.eventA : Trusera.Event :=
  { type := Trusera.EventType.toolCall, name := "search"
    payload := [], metadata := [] }

/-- A second concrete event for the C6 witness. -/
def Trusera.eventB : Trusera.Event :=
  { type := Trusera.EventType.llmInvoke, name := "llm_openai_gpt4"
    payload := [("provider", "openai")], metadata := [] }

/-- A concrete client state for the C6 witness: an agent id is set and two
events are queued under a batch size of five. -/
def Trusera.flushState0 : Trusera.ClientState :=
  { agentId := some "agent_test_123", batchSize := 5
    queue := [Trusera.eventA, Trusera.eventB] }



/-- Whether an `Except` value is a success; an `Except.error` is the
embedding of a Python exception escaping the call. -/
def Trusera.exceptIsOk {e a : Type} : Except e a → Bool
  | Except.ok _ => true
  | Except.error _ => false

/-- The construction-time observation of the api-key check in
`TruseraClient.__init__`: whether a warning about the key prefix was
logged during construction. -/
structure Trusera.ClientInit where
  warnedApiKey : Bool
deriving DecidableEq, Repr

/-- Whether the string `p` starts the string `s`, over character lists
(the effect of the Python `str.startswith` on the inputs involved
here). -/
def Trusera.strStartsWith (s p : String) : Bool :=
  Trusera.charsStartWith s.data p.data

/-- Embeds the credential check of `TruseraClient.__init__`
(`trusera_sdk/client.py` lines 71-72): a key without the `tsk_` prefix
only logs a warning — construction proceeds unconditionally.  The
`Except` wrapper embeds a possible construction-time exception; this
check never produces one. -/
def Trusera.clientInitKeyCheck (apiKey : String) :
    Except String Trusera.ClientInit :=
  Except.ok { warnedApiKey := !(Trusera.strStartsWith apiKey "tsk_") }

/-- Python falsy-or over an optional string: `a or b`, where `None` and
the empty string fall through to `b`. -/
def Trusera.pyOrStr (a : Option String) (b : String) : String :=
  match a with
  | some v => if v = "" then b else v
  | none => b

/-- Embeds the `auto_register` resolution of `TruseraClient.__init__`
(`client.py` lines 81-86): the lowercased value of
TRUSERA_AUTO_REGISTER — a recognized true spelling forces `True`, a
recognized false spelling forces `False`, anything else (including an
unset variable, read as the empty string) leaves the explicit argument. -/
def Trusera.effAutoRegister (arg : Bool) (env : Option String) : Bool :=
  let v := Trusera.strToLower (match env with | some w => w | none => "")
  if v = "true" || v = "1" || v = "yes" then true
  else if v = "false" || v = "0" || v = "no" then false
  else arg

/-- Embeds the `agent_name` resolution (`client.py` line 87):
the explicit argument, else TRUSERA_AGENT_NAME, else the hostname. -/
def Trusera.effAgentName (arg env : Option String) (hostname : String) :
    String :=
  Trusera.pyOrStr arg (Trusera.pyOrStr env hostname)

/-- Embeds the `agent_type` resolution (`client.py` line 88): the
explicit argument, else TRUSERA_AGENT_TYPE, else the empty string. -/
def Trusera.effAgentType (arg env : Option String) : String :=
  Trusera.pyOrStr arg (match env with | some w => w | none => "")

/-- Embeds the `environment` resolution (`client.py` line 89): the
explicit argument, else TRUSERA_ENVIRONMENT, else the empty string. -/
def Trusera.effEnvironment (arg env : Option String) : String :=
  Trusera.pyOrStr arg (match env with | some w => w | none => "")

/-- Embeds the `heartbeat_interval` resolution (`client.py` lines 90-91):
a set, non-empty TRUSERA_HEARTBEAT_INTERVAL (already parsed to a rational
here) overrides the explicit argument unconditionally. -/
def Trusera.effHeartbeatInterval (arg : ℚ) (env : Option ℚ) : ℚ :=
  match env with
  | some v => v
  | none => arg



/-- The four LangChain attachment points patched by the interceptor
(`BaseTool._run`, `BaseTool._arun`, `BaseLLM._generate`,
`BaseChatModel._generate` in
`trusera_sdk/integrations/langchain_interceptor.py`), each holding an
implementation identified here by a natural number. -/
structure Trusera.Hooks where
  toolRun : Nat
  toolArun : Nat
  llmGenerate : Nat
  chatGenerate : Nat
deriving DecidableEq, Repr

/-- The interceptor-owned state of `TruseraLangChainInterceptor`: the
installed flag and the four saved original implementations (all `None`
until the first install). -/
structure Trusera.LCInterceptor where
  installed : Bool
  origToolRun : Option Nat
  origToolArun : Option Nat
  origLlmGenerate : Option Nat
  origChatGenerate : Option Nat
deriving DecidableEq, Repr

/-- Embeds `TruseraLangChainInterceptor.install` (lines 96-150): raises a
RuntimeError if already installed; otherwise saves the current
implementation of every attachment point and replaces each with its
wrapped version (`patched` stands for the four fresh wrapper closures
created during the call). -/
def Trusera.lcInstall (patched : Trusera.Hooks) (i : Trusera.LCInterceptor)
    (g : Trusera.Hooks) :
    Except String (Trusera.LCInterceptor × Trusera.Hooks) :=
  if i.installed then
    Except.error "LangChain interceptor already installed"
  else
    Except.ok
      ({ installed := true
         origToolRun := some g.toolRun
         origToolArun := some g.toolArun
         origLlmGenerate := some g.llmGenerate
         origChatGenerate := some g.chatGenerate }, patched)

/-- The restore step shared by `uninstall` and `__exit__`: every saved
original implementation, when present, is written back to its attachment
point; the saved slots themselves are kept. -/
def Trusera.lcRestore (i : Trusera.LCInterceptor) (g : Trusera.Hooks) :
    Trusera.LCInterceptor × Trusera.Hooks :=
  ({ i with installed := false },
   { toolRun := match i.origToolRun with | some f => f | none => g.toolRun
     toolArun := match i.origToolArun with | some f => f | none => g.toolArun
     llmGenerate :=
       match i.origLlmGenerate with | some f => f | none => g.llmGenerate
     chatGenerate :=
       match i.origChatGenerate with | some f => f | none => g.chatGenerate })

/-- Embeds `TruseraLangChainInterceptor.uninstall` (lines 152-164): raises
a RuntimeError when not installed, otherwise restores every saved
implementation and clears the installed flag. -/
def Trusera.lcUninstall (i : Trusera.LCInterceptor) (g : Trusera.Hooks) :
    Except String (Trusera.LCInterceptor × Trusera.Hooks) :=
  if i.installed then Except.ok (Trusera.lcRestore i g)
  else Except.error "LangChain interceptor not installed"

/-- Embeds `__exit__` (lines 170-172): uninstalls only when installed. -/
def Trusera.lcExit (i : Trusera.LCInterceptor) (g : Trusera.Hooks) :
    Trusera.LCInterceptor × Trusera.Hooks :=
  if i.installed then Trusera.lcRestore i g else (i, g)

/-- The scoped (context-manager) form, `with interceptor: body`:
`__enter__` installs (propagating its error), the guarded body then runs
(`bodyRaises` records whether it raises), and `__exit__` always runs
afterwards; a body exception propagates after the exit handler. -/
def Trusera.lcScoped (patched : Trusera.Hooks) (i : Trusera.LCInterceptor)
    (g : Trusera.Hooks) (bodyRaises : Bool) :
    Except String ((Trusera.LCInterceptor × Trusera.Hooks) × Bool) :=
  match Trusera.lcInstall patched i g with
  | Except.error e => Except.error e
  | Except.ok (i1, g1) => Except.ok (Trusera.lcExit i1 g1, bodyRaises)

/-- The `create` attachment point of an OpenAI `chat.completions` or an
Anthropic `messages` namespace, holding an implementation identified by a
natural number. -/
structure Trusera.CreateSlot where
  create : Nat
deriving DecidableEq, Repr

/-- The `chat` namespace of an OpenAI-like client as probed by
`wrap_openai`: its `completions` attribute may be absent. -/
structure Trusera.ChatNS where
  completions : Option Trusera.CreateSlot
deriving DecidableEq, Repr

/-- The shape of an OpenAI-like client object as probed by `wrap_openai`:
the `chat` attribute may be absent. -/
structure Trusera.OpenAIClientObj where
  chat : Option Trusera.ChatNS
deriving DecidableEq, Repr

/-- The shape of an Anthropic-like client object as probed by
`wrap_anthropic`: the `messages` attribute may be absent. -/
structure Trusera.AnthropicClientObj where
  messages : Option Trusera.CreateSlot
deriving DecidableEq, Repr

/-- Embeds `TruseraLLMInterceptor.wrap_openai` (lines 106-109 together
with `_patch_openai_completions`): when `chat.completions` exists its
`create` is replaced with the wrapper, otherwise nothing happens.  The
second component is the Python return value — `None` in either case, so
the caller receives no signal about whether wrapping took effect. -/
def Trusera.wrapOpenai (patchedCreate : Nat) (c : Trusera.OpenAIClientObj) :
    Trusera.OpenAIClientObj × Option Unit :=
  match c.chat with
  | some ch =>
      match ch.completions with
      | some _ =>
          ({ chat := some { completions := some { create := patchedCreate } } },
           none)
      | none => (c, none)
  | none => (c, none)

/-- Embeds `TruseraLLMInterceptor.wrap_anthropic` (lines 111-114 together
with `_patch_anthropic_messages`): when `messages` exists its `create` is
replaced with the wrapper, otherwise nothing happens; the return value is
`None` in either case. -/
def Trusera.wrapAnthropic (patchedCreate : Nat)
    (c : Trusera.AnthropicClientObj) :
    Trusera.AnthropicClientObj × Option Unit :=
  match c.messages with
  | some _ => ({ messages := some { create := patchedCreate } }, none)
  | none => (c, none)



/-- Concrete original hook implementations for the C9 witness. -/
def Trusera.hooks0 : Trusera.Hooks :=
  { toolRun := 1, toolArun := 2, llmGenerate := 3, chatGenerate := 4 }

/-- Concrete wrapper implementations for the C9 witness. -/
def Trusera.patched0 : Trusera.Hooks :=
  { toolRun := 11, toolArun := 12, llmGenerate := 13, chatGenerate := 14 }

/-- A fresh, never-installed interceptor for the C9 witness. -/
def Trusera.lc0 : Trusera.LCInterceptor :=
  { installed := false, origToolRun := none, origToolArun := none
    origLlmGenerate := none, origChatGenerate := none }

/-- The interceptor state right after installing `lc0` over `hooks0`. -/
def Trusera.lc1 : Trusera.LCInterceptor :=
  { installed := true, origToolRun := some 1, origToolArun := some 2
    origLlmGenerate := some 3, origChatGenerate := some 4 }



/-- A concrete rule front end for the C3 witness: exactly the source text
"forbid evil.com" parses, to `evilRule`; everything else is malformed. -/
def Trusera.ruleOf0 : String → Option Trusera.ForbidRule :=
  fun t => if t = "forbid evil.com" then some Trusera.evilRule else none

/-- A concrete policy list for the C3 witness: an enabled matching
policy, an enabled malformed one, and a disabled matching one. -/
def Trusera.pols0 : List Trusera.Policy :=
  [{ id := "p1", sourceText := "forbid evil.com", enabled := true },
   { id := "p2", sourceText := "garbage", enabled := true },
   { id := "p3", sourceText := "forbid evil.com", enabled := false }]


/-- Claim C1: with a telemetry client configured, a not-allowed enforcement
step enqueues exactly one POLICY_VIOLATION event carrying action, target,
reason and the active mode, in every mode, and raises a violation error
precisely when the mode is BLOCK; an allowed step enqueues nothing and
raises nothing. -/
theorem Trusera.enforce_violation_event_and_block
    (mode : Trusera.EnforcementMode) (reason action target : String) :
    (Trusera.enforce true mode false reason action target).tracked =
      [{ type := Trusera.EventType.policyViolation
         name := "policy_violation_" ++ action
         payload := [("action", action), ("target", target), ("reason", reason)]
         metadata := [("enforcement", mode.value)] }] ∧
    ((Trusera.enforce true mode false reason action target).raised ≠ none ↔
      mode = Trusera.EnforcementMode.block) ∧
    (Trusera.enforce true mode true reason action target).tracked = [] ∧
    (Trusera.enforce true mode true reason action target).raised = none := by
  cases mode <;> simp [Trusera.enforce]

/-- Membership in a compiled policy set: a (policy id, rule) pair is
compiled exactly from an enabled member whose source text parses to that
rule. -/
theorem Trusera.mem_compile (ruleOf : String → Option Trusera.ForbidRule)
    (ps : List Trusera.Policy) (pr : String × Trusera.ForbidRule) :
    pr ∈ Trusera.compile ruleOf ps ↔
      ∃ p ∈ ps, p.enabled = true ∧
        ruleOf p.sourceText = some pr.2 ∧ pr.1 = p.id := by
  unfold Trusera.compile
  simp only [List.mem_filterMap, List.mem_filter, Option.map_eq_some']
  constructor
  · rintro ⟨p, ⟨hmem, hen⟩, r, hr, hpr⟩
    refine ⟨p, hmem, hen, ?_, ?_⟩
    · rw [hr, ← hpr]
    · rw [← hpr]
  · rintro ⟨p, hmem, hen, hr, hid⟩
    refine ⟨p, ⟨hmem, hen⟩, pr.2, hr, ?_⟩
    rw [← hid]

/-- Claim C3: the compiled evaluator denies a request precisely when some
enabled forbid rule (action type, resource pattern and all attribute
conditions) matches it, carrying the policy id of a matching enabled rule;
disabled policies are excluded, and with no enabled matching forbid rule
the decision is ALLOW. -/
theorem Trusera.evaluator_deny_iff_enabled_forbid_match
    (ruleOf : String → Option Trusera.ForbidRule) (ps : List Trusera.Policy)
    (ctx : Trusera.RequestContext) :
    (((Trusera.evalCompiled (Trusera.compile ruleOf ps) ctx).decision
        = Trusera.PolicyDecision.deny) ↔
      ∃ p ∈ ps, p.enabled = true ∧
        ∃ r, ruleOf p.sourceText = some r ∧ Trusera.ruleMatches r ctx = true) ∧
    ((Trusera.evalCompiled (Trusera.compile ruleOf ps) ctx).decision
        = Trusera.PolicyDecision.deny →
      ∃ p ∈ ps, p.enabled = true ∧
        (Trusera.evalCompiled (Trusera.compile ruleOf ps) ctx).policyId
          = some p.id ∧
        ∃ r, ruleOf p.sourceText = some r ∧ Trusera.ruleMatches r ctx = true) := by
  rcases hf : (Trusera.compile ruleOf ps).find?
      (fun pr => Trusera.ruleMatches pr.2 ctx) with _ | pr
  · have hf' := hf
    rw [List.find?_eq_none] at hf'
    simp only [Trusera.evalCompiled, hf]
    constructor
    · constructor
      · intro h
        exact absurd h (by decide)
      · rintro ⟨p, hmem, hen, r, hr, hm⟩
        exfalso
        have hpr : (p.id, r) ∈ Trusera.compile ruleOf ps := by
          rw [Trusera.mem_compile]
          exact ⟨p, hmem, hen, hr, rfl⟩
        exact absurd hm (by simpa using hf' _ hpr)
    · intro h
      exact absurd h (by decide)
  · have hmem := List.mem_of_find?_eq_some hf
    have hmatch : Trusera.ruleMatches pr.2 ctx = true := by
      simpa using List.find?_some hf
    rw [Trusera.mem_compile] at hmem
    rcases hmem with ⟨p, hpmem, hen, hr, hid⟩
    simp only [Trusera.evalCompiled, hf]
    refine ⟨⟨fun _ => ⟨p, hpmem, hen, pr.2, hr, hmatch⟩, fun _ => trivial⟩, ?_⟩
    intro _
    refine ⟨p, hpmem, hen, ?_, pr.2, hr, hmatch⟩
    rw [hid]

/-- Claim C2: with a remote source configured, once the elapsed time since
the last successful refresh exceeds `stale_ttl`, evaluation returns ALLOW
with a reason containing "stale", independently of the compiled
content of the compiled evaluator (which is quantified over and never
consulted). -/
theorem Trusera.cache_stale_fails_open (c : Trusera.PolicyCache) (now : ℚ)
    (ctx : Trusera.RequestContext) (h1 : c.hasClient = true)
    (h2 : c.staleTtl < now - c.lastSuccessfulRefresh) :
    (Trusera.cacheEvaluate c now ctx).decision = Trusera.PolicyDecision.allow ∧
    Trusera.strContains (Trusera.cacheEvaluate c now ctx).reason "stale"
      = true := by
  have h1' : ¬ c.hasClient = false := by simp [h1]
  simp only [Trusera.cacheEvaluate, if_neg h1', if_pos h2]
  exact ⟨trivial, by decide⟩

/-- Witness for C2 at a concrete cache and time: the evaluator itself would
deny the context, yet past the stale TTL the cache allows it with a stale
reason. -/
theorem Trusera.cache_stale_fails_open_witness :
    (Trusera.evalCompiled Trusera.staleCache.evaluator Trusera.evilCtx).decision
      = Trusera.PolicyDecision.deny ∧
    ((Trusera.cacheEvaluate Trusera.staleCache 1 Trusera.evilCtx).decision
      = Trusera.PolicyDecision.allow ∧
     Trusera.strContains
       (Trusera.cacheEvaluate Trusera.staleCache 1 Trusera.evilCtx).reason
       "stale" = true) :=
  ⟨by decide,
   Trusera.cache_stale_fails_open Trusera.staleCache 1 Trusera.evilCtx
     rfl (by simp [Trusera.staleCache])⟩

/-- Claim C4: a failing fetch leaves the whole cache state — in particular
the stored compiled evaluator and the last successful refresh time —
unchanged and returns normally (the embedded `refreshOnce` is total), so
every subsequent evaluation coincides with what it was before the
failure. -/
theorem Trusera.refresh_failure_noop (ruleOf : String → Option Trusera.ForbidRule)
    (c : Trusera.PolicyCache) (now : ℚ) :
    Trusera.refreshOnce ruleOf c now Trusera.FetchResult.failure = c ∧
    (Trusera.refreshOnce ruleOf c now Trusera.FetchResult.failure).evaluator
      = c.evaluator ∧
    (Trusera.refreshOnce ruleOf c now
        Trusera.FetchResult.failure).lastSuccessfulRefresh
      = c.lastSuccessfulRefresh ∧
    ∀ (t : ℚ) (ctx : Trusera.RequestContext),
      Trusera.cacheEvaluate
          (Trusera.refreshOnce ruleOf c now Trusera.FetchResult.failure) t ctx
        = Trusera.cacheEvaluate c t ctx :=
  ⟨rfl, rfl, rfl, fun _ _ => rfl⟩

/-- Claim C5: the content hash is invariant under permutation of the
policy list, and a refresh that fetches a permuted but semantically
identical set keeps the stored evaluator field untouched (the skip branch
never recompiles) while updating the last successful refresh time. -/
theorem Trusera.hash_perm_invariant_refresh_skip
    (ruleOf : String → Option Trusera.ForbidRule) (c : Trusera.PolicyCache)
    (now : ℚ) (ps ps' : List Trusera.Policy)
    (hperm : ps.Perm ps') (hstored : c.policyHash = Trusera.policySetHash ps) :
    Trusera.policySetHash ps = Trusera.policySetHash ps' ∧
    (Trusera.refreshOnce ruleOf c now
        (Trusera.FetchResult.success ps')).evaluator = c.evaluator ∧
    (Trusera.refreshOnce ruleOf c now
        (Trusera.FetchResult.success ps')).policyHash = c.policyHash ∧
    (Trusera.refreshOnce ruleOf c now
        (Trusera.FetchResult.success ps')).lastSuccessfulRefresh = now := by
  have hh : Trusera.policySetHash ps = Trusera.policySetHash ps' := by
    unfold Trusera.policySetHash
    exact Multiset.coe_eq_coe.mpr (hperm.map _)
  have hcond : Trusera.policySetHash ps' = c.policyHash := by
    rw [hstored, hh]
  refine ⟨hh, ?_, ?_, ?_⟩ <;>
    simp [Trusera.refreshOnce, if_pos hcond]

/-- Witness for C5 at concrete data: fetching the two policies in swapped
order yields the same hash, keeps the evaluator field and bumps the
refresh time. -/
theorem Trusera.hash_perm_invariant_refresh_skip_witness :
    Trusera.policySetHash [Trusera.polA, Trusera.polB]
      = Trusera.policySetHash [Trusera.polB, Trusera.polA] ∧
    (Trusera.refreshOnce (fun _ => none) Trusera.permCache 7
        (Trusera.FetchResult.success [Trusera.polB, Trusera.polA])).evaluator
      = Trusera.permCache.evaluator ∧
    (Trusera.refreshOnce (fun _ => none) Trusera.permCache 7
        (Trusera.FetchResult.success [Trusera.polB, Trusera.polA])).policyHash
      = Trusera.permCache.policyHash ∧
    (Trusera.refreshOnce (fun _ => none) Trusera.permCache 7
        (Trusera.FetchResult.success
          [Trusera.polB, Trusera.polA])).lastSuccessfulRefresh = 7 :=
  Trusera.hash_perm_invariant_refresh_skip (fun _ => none) Trusera.permCache 7
    [Trusera.polA, Trusera.polB] [Trusera.polB, Trusera.polA]
    (by decide) rfl

/-- Whatever the POST outcome, the delivered events together with the
remaining queue are a permutation of the original queue: `flush` never
loses an event. -/
theorem Trusera.flush_queue_perm (s : Trusera.ClientState)
    (post : Trusera.PostResult) :
    ((Trusera.flush s post).delivered ++
        (Trusera.flush s post).state.queue).Perm s.queue := by
  cases hA : s.agentId with
  | none => simp [Trusera.flush, hA]
  | some a =>
    cases hE : (s.queue.take s.batchSize).isEmpty with
    | true => cases post <;> simp [Trusera.flush, hA, hE]
    | false =>
      cases post with
      | success =>
        simp [Trusera.flush, hA, hE]
      | failure =>
        simp [Trusera.flush, hA, hE]
        have h2 : (s.queue.take s.batchSize ++ s.queue.drop s.batchSize).Perm
            s.queue := by
          rw [List.take_append_drop]
        exact List.perm_append_comm.trans h2

/-- A single flush drains and delivers at most `batch_size` events. -/
theorem Trusera.flush_delivered_le (s : Trusera.ClientState)
    (post : Trusera.PostResult) :
    (Trusera.flush s post).delivered.length ≤ s.batchSize := by
  cases hA : s.agentId with
  | none => simp [Trusera.flush, hA]
  | some a =>
    cases hE : (s.queue.take s.batchSize).isEmpty with
    | true => cases post <;> simp [Trusera.flush, hA, hE]
    | false =>
      cases post with
      | success =>
        simp [Trusera.flush, hA, hE]
      | failure => simp [Trusera.flush, hA, hE]

/-- A failed flush delivers nothing. -/
theorem Trusera.flush_failure_delivers_nothing (s : Trusera.ClientState) :
    (Trusera.flush s Trusera.PostResult.failure).delivered = [] := by
  cases hA : s.agentId with
  | none => simp [Trusera.flush, hA]
  | some a =>
    simp only [Trusera.flush, hA]
    split <;> rfl

/-- After a failed flush whose whole queue fits in one batch, the next
successful flush delivers a permutation of that queue. -/
theorem Trusera.flush_failure_then_success (s : Trusera.ClientState)
    (hA : s.agentId.isSome = true) (hlen : s.queue.length ≤ s.batchSize) :
    ((Trusera.flush (Trusera.flush s Trusera.PostResult.failure).state
        Trusera.PostResult.success).delivered).Perm s.queue := by
  rcases Option.isSome_iff_exists.mp hA with ⟨a, ha⟩
  have hdrop : s.queue.drop s.batchSize = [] := List.drop_eq_nil_of_le hlen
  have htake : s.queue.take s.batchSize = s.queue := List.take_of_length_le hlen
  cases hE : (s.queue.take s.batchSize).isEmpty with
  | true =>
    have hq : s.queue = [] := by
      rw [htake] at hE
      exact List.isEmpty_iff.mp hE
    simp [Trusera.flush, ha, hE, hq]
  | false =>
    rw [htake] at hE
    have hstate : (Trusera.flush s Trusera.PostResult.failure).state = s := by
      simp [Trusera.flush, ha, hdrop, htake, hE]
      rw [← ha]
    rw [hstate]
    simp [Trusera.flush, ha, htake, hE]

/-- Claim C6: events leave the queue only by successful delivery — in
every state the delivered batch plus the remaining queue is a permutation
of the prior queue, a flush drains at most `batch_size` events, a failed
POST delivers nothing and re-enqueues every drained event, and (with an
agent id set and the queue within one batch) the successful flush after a
failure delivers the whole prior queue. -/
theorem Trusera.telemetry_queue_at_least_once (s : Trusera.ClientState)
    (post : Trusera.PostResult) :
    ((Trusera.flush s post).delivered ++
        (Trusera.flush s post).state.queue).Perm s.queue ∧
    (Trusera.flush s post).delivered.length ≤ s.batchSize ∧
    ((Trusera.flush s Trusera.PostResult.failure).delivered = [] ∧
      ((Trusera.flush s Trusera.PostResult.failure).state.queue).Perm
        s.queue) ∧
    (s.agentId.isSome = true → s.queue.length ≤ s.batchSize →
      ((Trusera.flush (Trusera.flush s Trusera.PostResult.failure).state
          Trusera.PostResult.success).delivered).Perm s.queue) := by
  refine ⟨Trusera.flush_queue_perm s post, Trusera.flush_delivered_le s post,
    ⟨Trusera.flush_failure_delivers_nothing s, ?_⟩,
    fun hA hlen => Trusera.flush_failure_then_success s hA hlen⟩
  have h := Trusera.flush_queue_perm s Trusera.PostResult.failure
  rwa [Trusera.flush_failure_delivers_nothing s, List.nil_append] at h

/-- Witness for C6 at a concrete state: an agent id is set, two queued
events fit in one batch, and after a failed flush the next successful
flush delivers a permutation of the original queue. -/
theorem Trusera.telemetry_queue_at_least_once_witness :
    Trusera.flushState0.agentId.isSome = true ∧
    Trusera.flushState0.queue.length ≤ Trusera.flushState0.batchSize ∧
    ((Trusera.flush
        (Trusera.flush Trusera.flushState0 Trusera.PostResult.failure).state
        Trusera.PostResult.success).delivered).Perm Trusera.flushState0.queue :=
  ⟨by decide, by decide,
   (Trusera.telemetry_queue_at_least_once Trusera.flushState0
       Trusera.PostResult.failure).2.2.2 (by decide) (by decide)⟩

/-- Counterexample to C7: constructing the client with the malformed api
key "bad_key" succeeds — the check only records a warning — rather than
failing at construction time as the claim states. -/
theorem Trusera.client_init_bad_key_accepted :
    Trusera.exceptIsOk (Trusera.clientInitKeyCheck "bad_key") = true ∧
    Trusera.clientInitKeyCheck "bad_key"
      = Except.ok { warnedApiKey := true } :=
  ⟨rfl, rfl⟩

/-- Claim C7 amended: an invalid enforcement-mode string is a
construction-time error (from_string fails exactly off the three mode
words, case-insensitively), but a malformed api key is accepted —
construction always succeeds and only records a warning, exactly when the
key lacks the `tsk_` prefix. -/
theorem Trusera.construction_validation_amended :
    (∀ s : String,
      Trusera.exceptIsOk (Trusera.EnforcementMode.fromString s) = false ↔
        (Trusera.strToLower s ≠ "block" ∧ Trusera.strToLower s ≠ "warn" ∧
          Trusera.strToLower s ≠ "log")) ∧
    (∀ k : String,
      Trusera.exceptIsOk (Trusera.clientInitKeyCheck k) = true) ∧
    (∀ (k : String) (r : Trusera.ClientInit),
      Trusera.clientInitKeyCheck k = Except.ok r →
        (r.warnedApiKey = true ↔ Trusera.strStartsWith k "tsk_" = false)) := by
  refine ⟨fun s => ?_, fun k => rfl, fun k r hr => ?_⟩
  · unfold Trusera.EnforcementMode.fromString
    split_ifs with h1 h2 h3 <;> simp_all [Trusera.exceptIsOk]
  · unfold Trusera.clientInitKeyCheck at hr
    injection hr with h
    subst h
    cases hb : Trusera.strStartsWith k "tsk_" <;> simp [hb]

/-- Witness for the amended C7 at concrete inputs: "invalid" is rejected
as a mode string, and a client constructed with api key "bad" succeeds
with a recorded warning. -/
theorem Trusera.construction_validation_amended_witness :
    (Trusera.exceptIsOk (Trusera.EnforcementMode.fromString "invalid")
        = false ↔
      (Trusera.strToLower "invalid" ≠ "block" ∧
        Trusera.strToLower "invalid" ≠ "warn" ∧
        Trusera.strToLower "invalid" ≠ "log")) ∧
    Trusera.exceptIsOk (Trusera.clientInitKeyCheck "bad") = true ∧
    (({ warnedApiKey := true } : Trusera.ClientInit).warnedApiKey = true ↔
      Trusera.strStartsWith "bad" "tsk_" = false) :=
  ⟨Trusera.construction_validation_amended.1 "invalid",
   Trusera.construction_validation_amended.2.1 "bad",
   Trusera.construction_validation_amended.2.2 "bad"
     { warnedApiKey := true } rfl⟩

/-- Counterexample to C8: with the explicit constructor argument and the
corresponding TRUSERA_* environment variable both set, the environment
variable wins for auto_register and for heartbeat_interval — the explicit
argument does not. -/
theorem Trusera.env_precedence_counterexample :
    Trusera.effAutoRegister false (some "true") = true ∧
    Trusera.effAutoRegister false (some "true") ≠ false ∧
    Trusera.effHeartbeatInterval 60 (some 5) = 5 ∧
    Trusera.effHeartbeatInterval 60 (some 5) ≠ 60 :=
  ⟨rfl, by decide, rfl, by decide⟩

/-- Claim C8 amended: agent_name, agent_type and environment follow the
precedence explicit argument over environment variable over default (a
non-empty explicit argument wins); auto_register and heartbeat_interval
instead follow environment variable over explicit argument over default —
a recognized environment value overrides the explicit argument, which is
used only when the variable is absent or unrecognized. -/
theorem Trusera.config_precedence_amended :
    (∀ (n : String) (env : Option String) (hostname : String), n ≠ "" →
      Trusera.effAgentName (some n) env hostname = n) ∧
    (∀ (t : String) (env : Option String), t ≠ "" →
      Trusera.effAgentType (some t) env = t) ∧
    (∀ (e : String) (env : Option String), e ≠ "" →
      Trusera.effEnvironment (some e) env = e) ∧
    (∀ arg : Bool, Trusera.effAutoRegister arg none = arg) ∧
    (∀ (arg : Bool) (v : String),
      (Trusera.strToLower v = "true" ∨ Trusera.strToLower v = "1" ∨
        Trusera.strToLower v = "yes") →
      Trusera.effAutoRegister arg (some v) = true) ∧
    (∀ (arg : Bool) (v : String),
      (Trusera.strToLower v = "false" ∨ Trusera.strToLower v = "0" ∨
        Trusera.strToLower v = "no") →
      Trusera.effAutoRegister arg (some v) = false) ∧
    (∀ arg : ℚ, Trusera.effHeartbeatInterval arg none = arg) ∧
    (∀ (arg v : ℚ), Trusera.effHeartbeatInterval arg (some v) = v) := by
  refine ⟨?_, ?_, ?_, fun arg => rfl, ?_, ?_, fun arg => rfl, fun arg v => rfl⟩
  · intro n env hostname hn
    simp [Trusera.effAgentName, Trusera.pyOrStr, hn]
  · intro t env ht
    simp [Trusera.effAgentType, Trusera.pyOrStr, ht]
  · intro e env he
    simp [Trusera.effEnvironment, Trusera.pyOrStr, he]
  · rintro arg v (hv | hv | hv) <;> simp [Trusera.effAutoRegister, hv]
  · rintro arg v (hv | hv | hv) <;> simp [Trusera.effAutoRegister, hv]

/-- Witness for the amended C8 at concrete inputs: a non-empty explicit
agent name beats a set environment name, a "yes" environment value forces
auto_register on, and a set heartbeat environment value replaces the
explicit interval. -/
theorem Trusera.config_precedence_amended_witness :
    ("agent-x" ≠ ("" : String) ∧
      Trusera.effAgentName (some "agent-x") (some "env-name") "host"
        = "agent-x") ∧
    Trusera.effAutoRegister false (some "yes") = true ∧
    Trusera.effHeartbeatInterval 60 (some 5) = 5 :=
  ⟨⟨by decide,
    Trusera.config_precedence_amended.1 "agent-x" (some "env-name") "host"
      (by decide)⟩,
   Trusera.config_precedence_amended.2.2.2.2.1 false "yes"
     (Or.inr (Or.inr rfl)),
   Trusera.config_precedence_amended.2.2.2.2.2.2.2 60 5⟩

/-- Claim C9: install raises when already installed and uninstall raises
when not installed; install followed by uninstall restores the original
call-site implementations exactly; and the scoped form restores them and
ends uninstalled on exit whatever the guarded body did (the exit handler
runs for a raising body exactly as for a returning one). -/
theorem Trusera.lc_interceptor_lifecycle (patched : Trusera.Hooks)
    (i : Trusera.LCInterceptor) (g : Trusera.Hooks) (bodyRaises : Bool) :
    (i.installed = true →
      Trusera.exceptIsOk (Trusera.lcInstall patched i g) = false) ∧
    (i.installed = false →
      Trusera.exceptIsOk (Trusera.lcUninstall i g) = false) ∧
    (i.installed = false →
      ∀ i1 g1, Trusera.lcInstall patched i g = Except.ok (i1, g1) →
        ∃ i2, Trusera.lcUninstall i1 g1 = Except.ok (i2, g) ∧
          i2.installed = false) ∧
    (i.installed = false →
      ∃ i2, Trusera.lcScoped patched i g bodyRaises
          = Except.ok ((i2, g), bodyRaises) ∧ i2.installed = false) := by
  refine ⟨fun h => by simp [Trusera.lcInstall, h, Trusera.exceptIsOk],
    fun h => by simp [Trusera.lcUninstall, h, Trusera.exceptIsOk],
    fun h i1 g1 hinst => ?_, fun h => ?_⟩
  · simp [Trusera.lcInstall, h] at hinst
    obtain ⟨hi, hg⟩ := hinst
    subst hi
    subst hg
    exact ⟨_, rfl, rfl⟩
  · have hinst : Trusera.lcInstall patched i g
        = Except.ok
          ({ installed := true
             origToolRun := some g.toolRun
             origToolArun := some g.toolArun
             origLlmGenerate := some g.llmGenerate
             origChatGenerate := some g.chatGenerate }, patched) := by
      simp [Trusera.lcInstall, h]
    refine ⟨{ installed := false
              origToolRun := some g.toolRun
              origToolArun := some g.toolArun
              origLlmGenerate := some g.llmGenerate
              origChatGenerate := some g.chatGenerate }, ?_, rfl⟩
    simp [Trusera.lcScoped, hinst, Trusera.lcExit, Trusera.lcRestore]

/-- Witness for C9 at concrete states: installing over an installed
interceptor fails, uninstalling a fresh one fails, uninstalling the
installed state restores the original hooks, and the scoped form with a
raising body ends uninstalled with the hooks restored. -/
theorem Trusera.lc_interceptor_lifecycle_witness :
    Trusera.exceptIsOk
        (Trusera.lcInstall Trusera.patched0 Trusera.lc1 Trusera.hooks0)
      = false ∧
    Trusera.exceptIsOk (Trusera.lcUninstall Trusera.lc0 Trusera.hooks0)
      = false ∧
    (∃ i2, Trusera.lcUninstall Trusera.lc1 Trusera.patched0
        = Except.ok (i2, Trusera.hooks0) ∧ i2.installed = false) ∧
    (∃ i2, Trusera.lcScoped Trusera.patched0 Trusera.lc0 Trusera.hooks0 true
        = Except.ok ((i2, Trusera.hooks0), true) ∧ i2.installed = false) :=
  ⟨(Trusera.lc_interceptor_lifecycle Trusera.patched0 Trusera.lc1
      Trusera.hooks0 true).1 rfl,
   (Trusera.lc_interceptor_lifecycle Trusera.patched0 Trusera.lc0
      Trusera.hooks0 true).2.1 rfl,
   (Trusera.lc_interceptor_lifecycle Trusera.patched0 Trusera.lc0
      Trusera.hooks0 true).2.2.1 rfl Trusera.lc1 Trusera.patched0 rfl,
   (Trusera.lc_interceptor_lifecycle Trusera.patched0 Trusera.lc0
      Trusera.hooks0 true).2.2.2 rfl⟩

/-- Claim C10: wrapping an object that lacks the probed attribute path
(`chat.completions` for wrap_openai, `messages` for wrap_anthropic)
returns normally, leaves the object completely unchanged — no gate is
attached — and the return value is the same `None` as in the successful
case, signalling nothing to the caller. -/
theorem Trusera.wrap_missing_attribute_noop (p : Nat)
    (c : Trusera.OpenAIClientObj) (a : Trusera.AnthropicClientObj) :
    ((c.chat = none ∨ (∃ ch, c.chat = some ch ∧ ch.completions = none)) →
      (Trusera.wrapOpenai p c).1 = c) ∧
    (Trusera.wrapOpenai p c).2 = none ∧
    (a.messages = none → (Trusera.wrapAnthropic p a).1 = a) ∧
    (Trusera.wrapAnthropic p a).2 = none := by
  refine ⟨?_, ?_, fun h => by simp [Trusera.wrapAnthropic, h], ?_⟩
  · rintro (h | ⟨ch, hc, hcomp⟩)
    · simp [Trusera.wrapOpenai, h]
    · simp [Trusera.wrapOpenai, hc, hcomp]
  · rcases hc : c.chat with _ | ch
    · simp [Trusera.wrapOpenai, hc]
    · rcases hcc : ch.completions with _ | cr <;>
        simp [Trusera.wrapOpenai, hc, hcc]
  · rcases hm : a.messages with _ | m <;> simp [Trusera.wrapAnthropic, hm]

/-- Witness for C10 at concrete objects: a client without `chat`, one
with `chat` but no `completions`, and one without `messages` are all left
unchanged with a `None` return. -/
theorem Trusera.wrap_missing_attribute_noop_witness :
    (Trusera.wrapOpenai 99 { chat := none }).1
      = ({ chat := none } : Trusera.OpenAIClientObj) ∧
    (Trusera.wrapOpenai 99 { chat := some { completions := none } }).1
      = ({ chat := some { completions := none } } :
          Trusera.OpenAIClientObj) ∧
    (Trusera.wrapOpenai 99 { chat := none }).2 = none ∧
    (Trusera.wrapAnthropic 99 { messages := none }).1
      = ({ messages := none } : Trusera.AnthropicClientObj) ∧
    (Trusera.wrapAnthropic 99 { messages := none }).2 = none :=
  ⟨(Trusera.wrap_missing_attribute_noop 99 { chat := none }
      { messages := none }).1 (Or.inl rfl),
   (Trusera.wrap_missing_attribute_noop 99
      { chat := some { completions := none } } { messages := none }).1
     (Or.inr ⟨{ completions := none }, rfl, rfl⟩),
   (Trusera.wrap_missing_attribute_noop 99 { chat := none }
      { messages := none }).2.1,
   (Trusera.wrap_missing_attribute_noop 99 { chat := none }
      { messages := none }).2.2.1 rfl,
   (Trusera.wrap_missing_attribute_noop 99 { chat := none }
      { messages := none }).2.2.2⟩

/-- Witness for C3 at concrete data: with one enabled matching forbid
rule the decision is DENY and the result carries the id of that enabled
matching policy. -/
theorem Trusera.evaluator_deny_iff_enabled_forbid_match_witness :
    (Trusera.evalCompiled (Trusera.compile Trusera.ruleOf0 Trusera.pols0)
        Trusera.evilCtx).decision = Trusera.PolicyDecision.deny ∧
    (∃ p ∈ Trusera.pols0, p.enabled = true ∧
      (Trusera.evalCompiled (Trusera.compile Trusera.ruleOf0 Trusera.pols0)
          Trusera.evilCtx).policyId = some p.id ∧
      ∃ r, Trusera.ruleOf0 p.sourceText = some r ∧
        Trusera.ruleMatches r Trusera.evilCtx = true) :=
  ⟨by decide,
   (Trusera.evaluator_deny_iff_enabled_forbid_match Trusera.ruleOf0
      Trusera.pols0 Trusera.evilCtx).2 (by decide)⟩
